import Mathlib

/-!
Verification of the record-to-configuration synchronization pipeline of the
`unbinder` web application (source: `src/app.py`).

The Python source is shallowly embedded: the SQLite `records` table becomes a
list of `Record` values, the DNS library becomes an oracle `DnsState` mapping a
queried name to the outcome of a CNAME or A query, the two external commands
(`unbound-checkconf`, `systemctl restart unbound`) become a `SysEnv` of two
booleans, and each Flask route handler becomes a pure function from the store,
the oracle and the form input to the new store, the flash message shown to the
user, and the configuration text written (or `none` when none is written).
-/

/-- A row of the `records` table (`init_db`, `src/app.py`): columns
`id, domain, type, value, ttl, resolved_ip`.  `ttl` is an `Int` because Python
`int(...)` accepts negative values; `resolved_ip` is nullable. -/
structure Record where
  id : Nat
  domain : String
  rtype : String
  value : String
  ttl : Int
  resolved_ip : Option String
deriving DecidableEq, Repr

/-- Outcome of one `dns.resolver.Resolver.resolve` call.  A successful call in
dnspython always carries at least one rdata, modelled as a head plus a tail;
the three exceptional outcomes are `NoAnswer`, `NXDOMAIN` and `Timeout`. -/
inductive DnsResult where
  | ok (first : String) (rest : List String)
  | noAnswer
  | nxdomain
  | timeout
deriving DecidableEq, Repr

/-- The resolver oracle: what a CNAME query and an A query return for each
name, fixed for the duration of one call into the embedded code.  Names in a
CNAME answer are the raw rdata strings (before the source's `rstrip('.')`). -/
structure DnsState where
  cname : String → DnsResult
  aRecord : String → DnsResult

/-- Python `str.rstrip('.')`: remove every trailing dot. -/
def rstripDot (s : String) : String :=
  String.mk ((s.data.reverse.dropWhile (fun c => c == '.')).reverse)

/-- Python `str.strip()`: remove leading and trailing whitespace. -/
def pyStrip (s : String) : String :=
  String.mk (((s.data.dropWhile Char.isWhitespace).reverse.dropWhile
    Char.isWhitespace).reverse)

/-- Embeds `resolve_cname` (`src/app.py` lines 47-64).  The inner
`try/except (NoAnswer, NXDOMAIN)` keeps the target unchanged on those two
outcomes; a `Timeout` of the CNAME query escapes the inner handler and is
turned into a `ValueError` by the outer one.  When the CNAME query answers,
the `for` loop leaves `cname_target` equal to the last rdata (dot-stripped).
The A query then returns `str(answers[0])`, and its `NXDOMAIN`, `NoAnswer`
and `Timeout` all become a `ValueError`.  The error payload is the name whose
resolution failed. -/
def resolve_cname (dns : DnsState) (cname_target : String) : Except String String :=
  match dns.cname cname_target with
  | DnsResult.timeout => Except.error cname_target
  | DnsResult.ok first rest =>
      let t := rstripDot (List.getLast (first :: rest) (by simp))
      match dns.aRecord t with
      | DnsResult.ok ip _ => Except.ok ip
      | _ => Except.error t
  | _ =>
      match dns.aRecord cname_target with
      | DnsResult.ok ip _ => Except.ok ip
      | _ => Except.error cname_target

/-- Written from the words of claim C3: at most one CNAME query; if that query
yields an answer the target is replaced by the answer's terminal (last) name,
otherwise (no answer or name-not-found) the target is kept; the result is the
first address of the A answer for the resulting name; the call fails when
either lookup times out or the final A lookup yields no answer or a
non-existent domain. -/
def resolveSpec (dns : DnsState) (target : String) : Except String String :=
  if dns.cname target = DnsResult.timeout then
    Except.error target
  else
    let finalTarget :=
      match dns.cname target with
      | DnsResult.ok first rest => rstripDot (List.getLast (first :: rest) (by simp))
      | _ => target
    match dns.aRecord finalTarget with
    | DnsResult.ok ip _ => Except.ok ip
    | DnsResult.noAnswer => Except.error finalTarget
    | DnsResult.nxdomain => Except.error finalTarget
    | DnsResult.timeout => Except.error finalTarget

/-- The per-row effect of `refresh_cname_resolutions`: a row with
`type = 'CNAME'` gets `resolved_ip` overwritten with the result of
`resolve_cname` on its `value`, where any failure (`except Exception`) is
stored as NULL; rows of other types are not touched. -/
def refreshRow (dns : DnsState) (r : Record) : Record :=
  if r.rtype = "CNAME" then
    { r with resolved_ip := (resolve_cname dns r.value).toOption }
  else r

/-- Embeds `refresh_cname_resolutions` (`src/app.py` lines 66-80): the
`SELECT ... WHERE type = 'CNAME'` followed by one UPDATE per row applies
`refreshRow` to every row of the table. -/
def refresh_cname_resolutions (dns : DnsState) (records : List Record) : List Record :=
  records.map (refreshRow dns)

/-- One rendered `local-data` line of `generate_unbound_config`. -/
def configLine (domain : String) (ttl : Int) (ip : String) : String :=
  "\tlocal-data: \"" ++ domain ++ " " ++ toString ttl ++ " IN A " ++ ip ++ "\""

/-- The fixed zone declaration line of `generate_unbound_config`. -/
def zoneDecl : String := "\tlocal-zone: \"avexys.com.\" transparent"

/-- The line contributed by one record in the single `for` loop of
`generate_unbound_config` (`src/app.py` lines 94-99): an A record always
contributes a line from its `value`; a CNAME record contributes a line from
`resolved_ip` only when that field is truthy in Python (not NULL and not the
empty string); any other row contributes nothing. -/
def recordLine (r : Record) : Option String :=
  if r.rtype = "A" then
    some (configLine r.domain r.ttl r.value)
  else if r.rtype = "CNAME" then
    match r.resolved_ip with
    | some ip => if ip = "" then none else some (configLine r.domain r.ttl ip)
    | none => none
  else none

/-- The list of lines rendered by `generate_unbound_config` from an
already-refreshed record list: the fixed `server:` header, the zone
declaration, then one pass over the records in order. -/
def config_lines (records : List Record) : List String :=
  "server:" :: zoneDecl :: records.filterMap recordLine

/-- The text written to the configuration file: lines joined by newlines plus
a trailing newline (`'\n'.join(config_lines) + '\n'`). -/
def renderConfig (records : List Record) : String :=
  String.intercalate "\n" (config_lines records) ++ "\n"

/-- Exit status of the two external commands run by `restart_unbound`:
whether `unbound-checkconf` exits 0 and whether `systemctl restart unbound`
exits 0. -/
structure SysEnv where
  checkconfOk : Bool
  restartOk : Bool
deriving DecidableEq, Repr

/-- Embeds `restart_unbound` (`src/app.py` lines 13-23).  First component:
the returned boolean (`True` only when both commands succeed; any
`CalledProcessError` is caught and `False` returned, so a failure never
terminates the process).  Second component: whether the restart command was
invoked at all — in the source this is implicit in control flow, since the
`subprocess.run` of `systemctl` is reached only when `unbound-checkconf`
exits 0. -/
def restart_unbound (env : SysEnv) : Bool × Bool :=
  if env.checkconfOk then (env.restartOk, true) else (false, false)

/-- The persisted store: the `records` table plus the next AUTOINCREMENT id
sqlite will assign. -/
structure Store where
  nextId : Nat
  records : List Record
deriving DecidableEq, Repr

/-- A fresh database: AUTOINCREMENT starts at 1. -/
def emptyStore : Store := ⟨1, []⟩

/-- Embeds `generate_unbound_config` (`src/app.py` lines 82-104): refresh all
CNAME resolutions, render the full record list, write the text, then call
`restart_unbound` whose boolean result is discarded, exactly as in the source
(the bare call on line 104; the function returns `None`).  Result: the store
after the refresh and the text written. -/
def generate_unbound_config (dns : DnsState) (env : SysEnv) (store : Store) :
    Store × String :=
  let store2 : Store := ⟨store.nextId, refresh_cname_resolutions dns store.records⟩
  let text := renderConfig store2.records
  let _ := restart_unbound env
  (store2, text)

/-- Flash message shown to the user after an operation, with its category. -/
inductive Flash where
  | error (msg : String)
  | success (msg : String)
deriving DecidableEq, Repr

/-- Tests the category of a flash message. -/
def Flash.isError : Flash → Bool
  | Flash.error _ => true
  | Flash.success _ => false

/-- The parsed form fields of a POST to `/add` or `/edit/<id>`: `domain`,
`type` and `value` as submitted (before `.strip()`), and `ttl` after Python's
`int(...)` (a request whose ttl field fails to parse is rejected before any
of the embedded logic runs and mutates nothing). -/
structure FormInput where
  domain : String
  rtype : String
  value : String
  ttl : Int
deriving DecidableEq, Repr

/-- Appends a new row as sqlite INSERT does: it receives the next
AUTOINCREMENT id and the store's counter advances. -/
def insertRecord (store : Store) (domain rtype value : String) (ttl : Int)
    (rip : Option String) : Store :=
  ⟨store.nextId + 1, store.records ++ [⟨store.nextId, domain, rtype, value, ttl, rip⟩]⟩

/-- Embeds the POST handler `add_record` (`src/app.py` lines 126-174).
Branches in source order: the `all([...])` emptiness check (in which
`str(ttl)` is always truthy, so ttl is not constrained), the type whitelist,
the duplicate-A-IP check, CNAME resolution (a `ValueError` blocks the
insert), then INSERT followed by `generate_unbound_config` and the success
flash.  Result: new store, flash, and the config text written (`none` when
no regeneration happened). -/
def add_record (dns : DnsState) (env : SysEnv) (store : Store) (inp : FormInput) :
    Store × Flash × Option String :=
  let domain := pyStrip inp.domain
  let value := pyStrip inp.value
  if domain = "" ∨ inp.rtype = "" ∨ value = "" then
    (store, Flash.error "All fields are required", none)
  else if inp.rtype ≠ "A" ∧ inp.rtype ≠ "CNAME" then
    (store, Flash.error "Invalid record type", none)
  else if inp.rtype = "A" ∧ store.records.any (fun r => r.rtype == "A" && r.value == value) then
    (store, Flash.error "An A record with this IP already exists", none)
  else if inp.rtype = "CNAME" then
    match resolve_cname dns value with
    | Except.error e => (store, Flash.error ("Error resolving CNAME: " ++ e), none)
    | Except.ok ip =>
        let store1 := insertRecord store domain inp.rtype value inp.ttl (some ip)
        let out := generate_unbound_config dns env store1
        (out.1, Flash.success "Record added successfully", some out.2)
  else
    let store1 := insertRecord store domain inp.rtype value inp.ttl none
    let out := generate_unbound_config dns env store1
    (out.1, Flash.success "Record added successfully", some out.2)

/-- The sqlite UPDATE of `edit_record`: replace every field but the id on the
row whose id matches. -/
def updateById (records : List Record) (rid : Nat) (domain rtype value : String)
    (ttl : Int) (rip : Option String) : List Record :=
  records.map (fun r => if r.id = rid then ⟨r.id, domain, rtype, value, ttl, rip⟩ else r)

/-- Embeds the POST branch of `edit_record` (`src/app.py` lines 177-232).
Branches in source order: the existence check on the id (`Record not found`),
the type whitelist, the duplicate-A-IP check excluding the edited row, CNAME
resolution, then UPDATE of all fields followed by `generate_unbound_config`
and the success flash.  Note the source has no emptiness check here. -/
def edit_record (dns : DnsState) (env : SysEnv) (store : Store) (rid : Nat)
    (inp : FormInput) : Store × Flash × Option String :=
  if store.records.any (fun r => r.id == rid) = false then
    (store, Flash.error "Record not found", none)
  else
    let domain := pyStrip inp.domain
    let value := pyStrip inp.value
    if inp.rtype ≠ "A" ∧ inp.rtype ≠ "CNAME" then
      (store, Flash.error "Invalid record type", none)
    else if inp.rtype = "A" ∧
        store.records.any (fun r => r.rtype == "A" && r.value == value && r.id != rid) then
      (store, Flash.error "Another A record with this IP already exists", none)
    else if inp.rtype = "CNAME" then
      match resolve_cname dns value with
      | Except.error e => (store, Flash.error ("Error resolving CNAME: " ++ e), none)
      | Except.ok ip =>
          let store1 : Store := ⟨store.nextId, updateById store.records rid domain inp.rtype value inp.ttl (some ip)⟩
          let out := generate_unbound_config dns env store1
          (out.1, Flash.success "Record updated successfully", some out.2)
    else
      let store1 : Store := ⟨store.nextId, updateById store.records rid domain inp.rtype value inp.ttl none⟩
      let out := generate_unbound_config dns env store1
      (out.1, Flash.success "Record updated successfully", some out.2)

/-- Embeds `delete_record` (`src/app.py` lines 234-246): DELETE of the row
with the given id (no error when no row matches), regeneration, success
flash. -/
def delete_record (dns : DnsState) (env : SysEnv) (store : Store) (rid : Nat) :
    Store × Flash × Option String :=
  let store1 : Store := ⟨store.nextId, store.records.filter (fun r => r.id != rid)⟩
  let out := generate_unbound_config dns env store1
  (out.1, Flash.success "Record deleted successfully", some out.2)

/-- One user-driven mutation of the store. -/
inductive Op where
  | addOp (inp : FormInput)
  | editOp (rid : Nat) (inp : FormInput)
  | delOp (rid : Nat)
deriving DecidableEq, Repr

/-- The store after one mutating HTTP request. -/
def applyOp (dns : DnsState) (env : SysEnv) (store : Store) : Op → Store
  | Op.addOp inp => (add_record dns env store inp).1
  | Op.editOp rid inp => (edit_record dns env store rid inp).1
  | Op.delOp rid => (delete_record dns env store rid).1

/-- The store after a sequence of mutating HTTP requests. -/
def applyOps (dns : DnsState) (env : SysEnv) : Store → List Op → Store
  | s, [] => s
  | s, op :: ops => applyOps dns env (applyOp dns env s op) ops

/-- Embeds the view-building part of `index` (`src/app.py` lines 106-124):
partition by type, attach to every A record the domains of the CNAME records
whose `resolved_ip` equals its `value`, accumulate the union of all alias
domains (`mapped_cnames`, a set in the source, a list with the same
membership here), and keep as unmapped the CNAME records whose domain is not
in that union.  Result: the aliased A records and the unmapped CNAMEs, both
in table order. -/
def index (records : List Record) : List (Record × List String) × List Record :=
  let a_records := records.filter (fun r => r.rtype == "A")
  let cname_records := records.filter (fun r => r.rtype == "CNAME")
  let aliased := a_records.map (fun a =>
    (a, (cname_records.filter (fun c => c.resolved_ip == some a.value)).map (fun c => c.domain)))
  let mapped := aliased.foldl (fun s p => s ++ p.2) []
  let unmapped := cname_records.filter (fun c => !(mapped.contains c.domain))
  (aliased, unmapped)

/-- Written from the words of claim C5: the alias set of an A record with
value `v` is the list of domains of the CNAME records whose `resolved_ip`
string-equals `v`, in input order. -/
def aliasesSpec (records : List Record) (v : String) : List String :=
  records.filterMap (fun c =>
    if c.rtype == "CNAME" && c.resolved_ip == some v then some c.domain else none)

/-- Written from the words of claim C5: a CNAME record is unmapped iff its
domain is not in the union of all alias sets, i.e. no A record of the list
has the record's domain in its alias set. -/
def unmappedSpec (records : List Record) (c : Record) : Bool :=
  records.all (fun a => !(a.rtype == "A" && (aliasesSpec records a.value).contains c.domain))

/-- Written from the words of the amended claim C1: the line contributed by a
record of the data model (`type ∈ {A, CNAME}`, `resolved_ip` null or a
non-empty address): an A record binds its domain to its value with its ttl; a
CNAME record with non-null `resolved_ip` binds its domain to that address
with its ttl; a CNAME with null `resolved_ip` contributes nothing. -/
def specRecordLine (r : Record) : Option String :=
  if r.rtype == "A" then some (configLine r.domain r.ttl r.value)
  else
    match r.resolved_ip with
    | some ip => some (configLine r.domain r.ttl ip)
    | none => none

/-- Written from the words of claim C1 as stated: header and zone
declaration, then a block of all A-record lines, then a block of all lines of
CNAME records with non-null `resolved_ip`, each block in insertion order. -/
def config_lines_grouped (records : List Record) : List String :=
  "server:" :: zoneDecl ::
    ((records.filter (fun r => r.rtype == "A")).map
        (fun r => configLine r.domain r.ttl r.value) ++
      (records.filter (fun r => r.rtype == "CNAME")).filterMap
        (fun r => r.resolved_ip.map (fun ip => configLine r.domain r.ttl ip)))

/-- No two A records hold the same value (IP). -/
def noDupAValues (l : List Record) : Prop :=
  l.Pairwise (fun r s => r.rtype = "A" → s.rtype = "A" → r.value ≠ s.value)

/-- The store invariant maintained by the handlers: ids are pairwise distinct
and no two A records hold the same value. -/
def storeInv (l : List Record) : Prop :=
  l.Pairwise (fun r s => r.id ≠ s.id ∧ (r.rtype = "A" → s.rtype = "A" → r.value ≠ s.value))

/-- Well-formedness of a store: the invariant plus freshness of the
AUTOINCREMENT counter. -/
def StoreWF (s : Store) : Prop :=
  storeInv s.records ∧ ∀ r ∈ s.records, r.id < s.nextId

/-- Every A record has a null `resolved_ip`. -/
def recordsANull (l : List Record) : Prop :=
  ∀ r ∈ l, r.rtype = "A" → r.resolved_ip = none

/-- A resolver oracle on which every query fails with NXDOMAIN. -/
def dns0 : DnsState := ⟨fun _ => DnsResult.nxdomain, fun _ => DnsResult.nxdomain⟩

/-- A resolver oracle on which every CNAME query has no answer and every A
query answers `203.0.113.5`. -/
def dnsFixed : DnsState :=
  ⟨fun _ => DnsResult.noAnswer, fun _ => DnsResult.ok "203.0.113.5" []⟩

/-- An environment in which both external commands succeed. -/
def env0 : SysEnv := ⟨true, true⟩

/-- An environment in which `unbound-checkconf` reports failure. -/
def envBad : SysEnv := ⟨false, true⟩

/-- A concrete A record. -/
def exA : Record := ⟨1, "web.example.com", "A", "203.0.113.5", 300, none⟩

/-- A concrete resolved CNAME record. -/
def exC1 : Record := ⟨2, "alias.example.com", "CNAME", "web.example.com", 300, some "203.0.113.5"⟩

/-- A concrete unresolved CNAME record sharing `exC1`'s domain. -/
def exC2 : Record := ⟨3, "alias.example.com", "CNAME", "other.example.com", 300, none⟩

/-! Helper lemmas about the per-row refresh. -/

@[simp] theorem refreshRow_id (dns : DnsState) (r : Record) :
    (refreshRow dns r).id = r.id := by
  unfold refreshRow; split <;> rfl

@[simp] theorem refreshRow_rtype (dns : DnsState) (r : Record) :
    (refreshRow dns r).rtype = r.rtype := by
  unfold refreshRow; split <;> rfl

@[simp] theorem refreshRow_value (dns : DnsState) (r : Record) :
    (refreshRow dns r).value = r.value := by
  unfold refreshRow; split <;> rfl

@[simp] theorem refreshRow_domain (dns : DnsState) (r : Record) :
    (refreshRow dns r).domain = r.domain := by
  unfold refreshRow; split <;> rfl

theorem refreshRow_idem (dns : DnsState) (r : Record) :
    refreshRow dns (refreshRow dns r) = refreshRow dns r := by
  unfold refreshRow
  by_cases h : r.rtype = "CNAME" <;> simp [h]

/-- C3: for every oracle and target hostname, the source's `resolve_cname`
computes exactly the resolution function described by the claim: one CNAME
query, target replaced by that answer's terminal name when an answer exists
and kept on no-answer/name-not-found, then the first address of the A answer,
failing precisely on a timeout of either lookup or on a final A lookup with
no answer or a non-existent domain.  Both functions are pure, so no mutation
is performed. -/
theorem resolve_cname_eq_resolveSpec (dns : DnsState) (target : String) :
    resolve_cname dns target = resolveSpec dns target := by
  unfold resolve_cname resolveSpec
  cases hc : dns.cname target <;> simp [hc] <;>
    cases ha : dns.aRecord _ <;> simp [ha]

/-- C1 counterexample: on the table holding first a resolved CNAME record and
then an A record, the source renders the CNAME line before the A line (one
single pass in table order), so the output is not an A-records block followed
by a CNAME-records block as the claim states. -/
theorem config_lines_not_grouped :
    config_lines [exC1, exA] ≠ config_lines_grouped [exC1, exA] := by
  decide

/-- C1 amended: for every record list of the data model (each type is A or
CNAME and no resolved address is the empty string), the rendered
configuration is the fixed header and zone declaration followed by exactly
one `local-data` line per A record (domain bound to value with its ttl) and
one per CNAME record with non-null `resolved_ip` (domain bound to that
address with its ttl), CNAMEs with null `resolved_ip` contributing no line —
but the lines appear interleaved in insertion order of the record list (a
single pass), not grouped into an A block and a CNAME block. -/
theorem config_lines_one_pass (records : List Record)
    (htype : ∀ r ∈ records, r.rtype = "A" ∨ r.rtype = "CNAME")
    (hip : ∀ r ∈ records, r.resolved_ip ≠ some "") :
    config_lines records = "server:" :: zoneDecl :: records.filterMap specRecordLine := by
  unfold config_lines
  congr 1
  congr 1
  apply List.filterMap_congr
  intro r hr
  rcases htype r hr with h | h
  · simp [recordLine, specRecordLine, h]
  · have hne : r.resolved_ip ≠ some "" := hip r hr
    cases hres : r.resolved_ip with
    | none => simp [recordLine, specRecordLine, h, hres]
    | some ip =>
        have : ip ≠ "" := by
          intro he; exact hne (by rw [hres, he])
        simp [recordLine, specRecordLine, h, hres, this]

/-- C1 amended, witness at a concrete record list. -/
theorem config_lines_one_pass_witness :
    config_lines [exC1, exA, exC2] =
      "server:" :: zoneDecl :: ([exC1, exA, exC2].filterMap specRecordLine) :=
  config_lines_one_pass [exC1, exA, exC2] (by decide) (by decide)

/-- C4: `refresh_cname_resolutions` visits every position of the record list
regardless of earlier failures: the output has the same length, and the row
at every position is the input row with `resolved_ip` overwritten by the
outcome of the resolution engine on its `value` (the returned IP on success,
null on failure) when it is a CNAME, and is the unchanged input row
otherwise.  The outcome at each position depends only on that row, so no
failure aborts the remaining rows. -/
theorem refreshAll_visits_every_record (dns : DnsState) (records : List Record) :
    (refresh_cname_resolutions dns records).length = records.length ∧
    ∀ i : Nat, (refresh_cname_resolutions dns records)[i]? =
      (records[i]?).map (fun r =>
        if r.rtype = "CNAME" then
          { r with resolved_ip :=
              match resolve_cname dns r.value with
              | Except.ok ip => some ip
              | Except.error _ => none }
        else r) := by
  constructor
  · simp [refresh_cname_resolutions]
  · intro i
    simp only [refresh_cname_resolutions, List.getElem?_map]
    cases records[i]? with
    | none => rfl
    | some r =>
        show some (refreshRow dns r) = some _
        congr 1
        unfold refreshRow
        by_cases h : r.rtype = "CNAME"
        · cases hres : resolve_cname dns r.value <;>
            simp [h, hres, Except.toOption]
        · simp [h]

/-! Helper lemmas for delete idempotence. -/

theorem refresh_idem (dns : DnsState) (l : List Record) :
    refresh_cname_resolutions dns (refresh_cname_resolutions dns l) =
      refresh_cname_resolutions dns l := by
  induction l with
  | nil => rfl
  | cons a t ih =>
      simp only [refresh_cname_resolutions, List.map_cons] at ih ⊢
      rw [refreshRow_idem, ih]

theorem refresh_filter_id (dns : DnsState) (l : List Record) (rid : Nat) :
    (refresh_cname_resolutions dns l).filter (fun r => r.id != rid) =
      refresh_cname_resolutions dns (l.filter (fun r => r.id != rid)) := by
  unfold refresh_cname_resolutions
  rw [List.filter_map]
  congr 1
  apply List.filter_congr
  intro a _
  simp [Function.comp]

theorem filter_id_self (l : List Record) (rid : Nat) :
    (l.filter (fun r => r.id != rid)).filter (fun r => r.id != rid) =
      l.filter (fun r => r.id != rid) := by
  rw [List.filter_filter]
  apply List.filter_congr
  intro a _
  simp

/-- C9: delete is total over ids and idempotent: for every id the operation
reports success whether or not a row with that id exists (a non-existent id
is not an error), and deleting the same id twice yields exactly the same
store, flash and configuration text as deleting it once. -/
theorem delete_record_idempotent_total (dns : DnsState) (env : SysEnv)
    (store : Store) (rid : Nat) :
    (delete_record dns env store rid).2.1 = Flash.success "Record deleted successfully" ∧
    delete_record dns env (delete_record dns env store rid).1 rid =
      delete_record dns env store rid := by
  refine ⟨rfl, ?_⟩
  simp only [delete_record, generate_unbound_config]
  rw [refresh_filter_id, filter_id_self, refresh_idem]

/-! Helper lemmas for the view builder. -/

theorem mem_foldl_append (l : List (Record × List String)) (init : List String)
    (x : String) :
    x ∈ l.foldl (fun s p => s ++ p.2) init ↔ x ∈ init ∨ ∃ p ∈ l, x ∈ p.2 := by
  induction l generalizing init with
  | nil => simp
  | cons a t ih =>
      simp only [List.foldl_cons, ih, List.mem_append, List.mem_cons]
      constructor
      · rintro ((h | h) | ⟨p, hp, hx⟩)
        · exact Or.inl h
        · exact Or.inr ⟨a, Or.inl rfl, h⟩
        · exact Or.inr ⟨p, Or.inr hp, hx⟩
      · rintro (h | ⟨p, (rfl | hp), hx⟩)
        · exact Or.inl (Or.inl h)
        · exact Or.inl (Or.inr hx)
        · exact Or.inr ⟨p, hp, hx⟩

theorem filter_map_filterMap {α : Type} (l : List Record) (s : Record → Bool)
    (h : Record → α) :
    (l.filter s).map h = l.filterMap (fun c => if s c then some (h c) else none) := by
  induction l with
  | nil => rfl
  | cons a t ih =>
      by_cases hs : s a = true
      · rw [List.filter_cons_of_pos hs, List.map_cons, ih,
          List.filterMap_cons_some (b := h a)]
        simp [hs]
      · rw [List.filter_cons_of_neg hs, ih, List.filterMap_cons_none]
        simp [hs]

theorem filter_filter_map {α : Type} (l : List Record) (p q : Record → Bool)
    (h : Record → α) :
    ((l.filter p).filter q).map h =
      l.filterMap (fun c => if p c && q c then some (h c) else none) := by
  rw [List.filter_filter, filter_map_filterMap]
  apply List.filterMap_congr
  intro c _
  by_cases hp : p c = true <;> by_cases hq : q c = true <;> simp [hp, hq]

theorem aliases_as_spec (records : List Record) (v : String) :
    ((records.filter (fun r => r.rtype == "CNAME")).filter
        (fun c => c.resolved_ip == some v)).map (fun c => c.domain) =
      aliasesSpec records v := by
  rw [filter_filter_map]
  rfl


theorem unmapped_cond (records : List Record) (c : Record) :
    (!((((records.filter (fun r => r.rtype == "A")).map
        (fun a => (a, aliasesSpec records a.value))).foldl
          (fun s p => s ++ p.2) []).contains c.domain)) = unmappedSpec records c := by
  apply Bool.coe_iff_coe.mp
  simp [unmappedSpec, mem_foldl_append, List.all_eq_true, imp_iff_not_or, or_assoc]

theorem index_fst (records : List Record) :
    (index records).1 =
      (records.filter (fun r => r.rtype == "A")).map
        (fun a => (a, aliasesSpec records a.value)) := by
  have hfun : (fun a : Record =>
      (a, ((records.filter (fun r => r.rtype == "CNAME")).filter
        (fun c => c.resolved_ip == some a.value)).map (fun c => c.domain))) =
      (fun a : Record => (a, aliasesSpec records a.value)) :=
    funext fun a => by rw [aliases_as_spec]
  show (records.filter (fun r => r.rtype == "A")).map
      (fun a => (a, ((records.filter (fun r => r.rtype == "CNAME")).filter
        (fun c => c.resolved_ip == some a.value)).map (fun c => c.domain))) =
    (records.filter (fun r => r.rtype == "A")).map
      (fun a => (a, aliasesSpec records a.value))
  rw [hfun]

theorem index_snd (records : List Record) :
    (index records).2 =
      (records.filter (fun r => r.rtype == "CNAME")).filter (unmappedSpec records) := by
  have h2step : (index records).2 =
      (records.filter (fun r => r.rtype == "CNAME")).filter
        (fun c => !((((index records).1).foldl (fun s p => s ++ p.2) []).contains c.domain)) := rfl
  rw [h2step, index_fst]
  apply List.filter_congr
  intro c _
  exact unmapped_cond records c

theorem index_mem_unmapped (records : List Record) (c : Record) (hc : c ∈ records)
    (ht : c.rtype = "CNAME")
    (hno : ∀ a ∈ records, a.rtype = "A" → c.domain ∉ aliasesSpec records a.value) :
    c ∈ (index records).2 := by
  rw [index_snd, List.mem_filter]
  refine ⟨List.mem_filter.mpr ⟨hc, by simp [ht]⟩, ?_⟩
  rw [unmappedSpec, List.all_eq_true]
  intro a ha
  simp only [Bool.not_eq_true', Bool.and_eq_false_iff]
  by_cases hA : a.rtype = "A"
  · right
    simp [hno a ha hA]
  · left
    simp [hA]

/-- C5 counterexample: the claim's consequence "a CNAME with null
`resolved_ip` always appears among the unmapped CNAMEs" fails on the table
[A `web.example.com`→`203.0.113.5`; CNAME `alias.example.com` resolved to
`203.0.113.5`; CNAME `alias.example.com` with null `resolved_ip`]: the
unmapped test is by domain and the resolved record puts
`alias.example.com` into the alias union, so the view builder returns no
unmapped CNAME at all although the third record is a CNAME with null
`resolved_ip`. -/
theorem unresolved_cname_not_always_unmapped :
    exC2 ∈ [exA, exC1, exC2] ∧ exC2.rtype = "CNAME" ∧ exC2.resolved_ip = none ∧
    (index [exA, exC1, exC2]).2 = [] := by
  decide

/-- C5 amended: the view builder computes each A record's alias set as
exactly the domains of the CNAME records whose `resolved_ip` string-equals
that A record's value (a CNAME with null `resolved_ip` is an alias of
nothing), and classifies a CNAME record as unmapped iff its domain is not in
the union of all alias sets; a CNAME with null `resolved_ip` appears among
the unmapped CNAMEs provided no record's alias set holds its domain (the
unmapped test is by domain, so another CNAME record with the same domain that
is an alias can hide it); alias lists and both output sequences preserve the
input record order. -/
theorem buildView_aliases_unmapped (records : List Record) :
    (index records).1 =
      (records.filter (fun r => r.rtype == "A")).map
        (fun a => (a, aliasesSpec records a.value)) ∧
    (index records).2 =
      (records.filter (fun r => r.rtype == "CNAME")).filter (unmappedSpec records) ∧
    ∀ c ∈ records, c.rtype = "CNAME" → c.resolved_ip = none →
      (∀ a ∈ records, a.rtype = "A" → c.domain ∉ aliasesSpec records a.value) →
      c ∈ (index records).2 :=
  ⟨index_fst records, index_snd records,
    fun c hc ht _ hno => index_mem_unmapped records c hc ht hno⟩

/-- C5 amended, witness: on a table holding one A record and one unresolved
CNAME, the unresolved CNAME is among the unmapped CNAMEs. -/
theorem buildView_aliases_unmapped_witness : exC2 ∈ (index [exA, exC2]).2 :=
  (buildView_aliases_unmapped [exA, exC2]).2.2 exC2 (by decide) (by decide)
    (by decide) (by decide)

/-! Helper lemmas: preservation of the store invariant by each handler. -/

theorem storeInv_refresh (dns : DnsState) (l : List Record) (h : storeInv l) :
    storeInv (refresh_cname_resolutions dns l) := by
  unfold storeInv refresh_cname_resolutions at *
  rw [List.pairwise_map]
  apply h.imp
  intro a b hab
  simpa using hab

theorem StoreWF_generate (dns : DnsState) (env : SysEnv) (s : Store)
    (h : StoreWF s) : StoreWF (generate_unbound_config dns env s).1 := by
  obtain ⟨hinv, hid⟩ := h
  refine ⟨storeInv_refresh dns s.records hinv, ?_⟩
  intro r hr
  have : r ∈ refresh_cname_resolutions dns s.records := hr
  rw [refresh_cname_resolutions, List.mem_map] at this
  obtain ⟨a, ha, rfl⟩ := this
  show (refreshRow dns a).id < s.nextId
  rw [refreshRow_id]
  exact hid a ha

theorem StoreWF_insert (s : Store) (domain rtype value : String) (ttl : Int)
    (rip : Option String) (h : StoreWF s)
    (hdup : rtype = "A" → ∀ r ∈ s.records, r.rtype = "A" → r.value ≠ value) :
    StoreWF (insertRecord s domain rtype value ttl rip) := by
  obtain ⟨hinv, hid⟩ := h
  constructor
  · unfold storeInv insertRecord at *
    rw [List.pairwise_append]
    refine ⟨hinv, by simp, ?_⟩
    intro a ha b hb
    simp only [List.mem_singleton] at hb
    subst hb
    refine ⟨Nat.ne_of_lt (hid a ha), ?_⟩
    intro hA hB
    exact fun he => (hdup hB a ha hA) he
  · intro r hr
    unfold insertRecord at hr
    simp only [List.mem_append, List.mem_singleton] at hr
    rcases hr with hr | rfl
    · exact Nat.lt_succ_of_lt (hid r hr)
    · exact Nat.lt_succ_self _

theorem StoreWF_update (s : Store) (rid : Nat) (domain rtype value : String)
    (ttl : Int) (rip : Option String) (h : StoreWF s)
    (hdup : rtype = "A" → ∀ r ∈ s.records, r.rtype = "A" → r.id ≠ rid → r.value ≠ value) :
    StoreWF ⟨s.nextId, updateById s.records rid domain rtype value ttl rip⟩ := by
  obtain ⟨hinv, hid⟩ := h
  constructor
  · unfold storeInv updateById at *
    rw [List.pairwise_map]
    refine List.Pairwise.imp_of_mem ?_ hinv
    intro a b ha hb hab
    by_cases haid : a.id = rid <;> by_cases hbid : b.id = rid
    · exact absurd (haid.trans hbid.symm) hab.1
    · simp only [if_pos haid, if_neg hbid]
      refine ⟨hab.1, ?_⟩
      intro hA hB he
      exact (hdup hA b hb hB hbid) he.symm
    · simp only [if_neg haid, if_pos hbid]
      refine ⟨hab.1, ?_⟩
      intro hA hB he
      exact (hdup hB a ha hA haid) he
    · simp only [if_neg haid, if_neg hbid]
      exact hab
  · intro r hr
    unfold updateById at hr
    rw [List.mem_map] at hr
    obtain ⟨a, ha, rfl⟩ := hr
    have hlt := hid a ha
    by_cases haid : a.id = rid
    · rw [if_pos haid]
      exact hlt
    · rw [if_neg haid]
      exact hlt

theorem StoreWF_filter (s : Store) (rid : Nat) (h : StoreWF s) :
    StoreWF ⟨s.nextId, s.records.filter (fun r => r.id != rid)⟩ := by
  obtain ⟨hinv, hid⟩ := h
  exact ⟨List.Pairwise.sublist (List.filter_sublist _) hinv,
    fun r hr => hid r (List.mem_of_mem_filter hr)⟩

theorem StoreWF_add (dns : DnsState) (env : SysEnv) (s : Store) (inp : FormInput)
    (h : StoreWF s) : StoreWF (add_record dns env s inp).1 := by
  simp only [add_record]
  split_ifs with h1 h2 h3 h4
  · exact h
  · exact h
  · exact h
  · cases hres : resolve_cname dns (pyStrip inp.value) with
    | error e => simp only [hres]; exact h
    | ok ip =>
        simp only [hres]
        refine StoreWF_generate dns env _ (StoreWF_insert _ _ _ _ _ _ h ?_)
        intro hA
        rw [h4] at hA
        exact absurd hA (by decide)
  · refine StoreWF_generate dns env _ (StoreWF_insert _ _ _ _ _ _ h ?_)
    intro hA r hr hrA he
    apply h3
    refine ⟨hA, ?_⟩
    rw [List.any_eq_true]
    exact ⟨r, hr, by simp [hrA, he]⟩

theorem StoreWF_edit (dns : DnsState) (env : SysEnv) (s : Store) (rid : Nat)
    (inp : FormInput) (h : StoreWF s) : StoreWF (edit_record dns env s rid inp).1 := by
  simp only [edit_record]
  split_ifs with h1 h2 h3 h4
  · exact h
  · exact h
  · exact h
  · cases hres : resolve_cname dns (pyStrip inp.value) with
    | error e => simp only [hres]; exact h
    | ok ip =>
        simp only [hres]
        refine StoreWF_generate dns env _ (StoreWF_update _ _ _ _ _ _ _ h ?_)
        intro hA
        rw [h4] at hA
        exact absurd hA (by decide)
  · refine StoreWF_generate dns env _ (StoreWF_update _ _ _ _ _ _ _ h ?_)
    intro hA r hr hrA hrid he
    apply h3
    refine ⟨hA, ?_⟩
    rw [List.any_eq_true]
    refine ⟨r, hr, ?_⟩
    simp [hrA, he, hrid]

theorem StoreWF_delete (dns : DnsState) (env : SysEnv) (s : Store) (rid : Nat)
    (h : StoreWF s) : StoreWF (delete_record dns env s rid).1 := by
  simp only [delete_record]
  exact StoreWF_generate dns env _ (StoreWF_filter s rid h)

theorem StoreWF_applyOp (dns : DnsState) (env : SysEnv) (s : Store) (op : Op)
    (h : StoreWF s) : StoreWF (applyOp dns env s op) := by
  cases op with
  | addOp inp => exact StoreWF_add dns env s inp h
  | editOp rid inp => exact StoreWF_edit dns env s rid inp h
  | delOp rid => exact StoreWF_delete dns env s rid h

theorem StoreWF_applyOps (dns : DnsState) (env : SysEnv) :
    ∀ (ops : List Op) (s : Store), StoreWF s → StoreWF (applyOps dns env s ops)
  | [], _, h => h
  | op :: ops, s, h =>
      StoreWF_applyOps dns env ops _ (StoreWF_applyOp dns env s op h)

/-- C2: starting from a well-formed store (distinct ids, no duplicate A
values), after any sequence of create, update and delete operations no two A
records hold the same value; moreover an insert of an A record whose value an
existing A record already holds fails with the duplicate-IP error and leaves
the store unchanged with no config regeneration, and so does an update that
would give an A record the value of another A record (the edited row itself
excluded). -/
theorem no_duplicate_A_values (dns : DnsState) (env : SysEnv) (store : Store)
    (ops : List Op) (hwf : StoreWF store) :
    noDupAValues (applyOps dns env store ops).records ∧
    (∀ inp : FormInput, inp.rtype = "A" → pyStrip inp.domain ≠ "" → pyStrip inp.value ≠ "" →
      store.records.any (fun r => r.rtype == "A" && r.value == pyStrip inp.value) = true →
      add_record dns env store inp =
        (store, Flash.error "An A record with this IP already exists", none)) ∧
    (∀ (rid : Nat) (inp : FormInput), inp.rtype = "A" →
      store.records.any (fun r => r.id == rid) = true →
      store.records.any (fun r => r.rtype == "A" && r.value == pyStrip inp.value && r.id != rid) = true →
      edit_record dns env store rid inp =
        (store, Flash.error "Another A record with this IP already exists", none)) := by
  refine ⟨?_, ?_, ?_⟩
  · have hw := StoreWF_applyOps dns env ops store hwf
    exact hw.1.imp (fun hab => hab.2)
  · intro inp hA hd hv hany
    simp [add_record, hA, hd, hv, hany]
  · intro rid inp hA hex hany
    simp [edit_record, hA, hex, hany]

/-- C2 witness: the empty store is well-formed, and one concrete add keeps
the no-duplicate-A-values property. -/
theorem no_duplicate_A_values_witness :
    noDupAValues (applyOps dns0 env0 emptyStore
      [Op.addOp ⟨"web.example.com", "A", "203.0.113.5", 300⟩]).records ∧
    (∀ inp : FormInput, inp.rtype = "A" → pyStrip inp.domain ≠ "" → pyStrip inp.value ≠ "" →
      emptyStore.records.any (fun r => r.rtype == "A" && r.value == pyStrip inp.value) = true →
      add_record dns0 env0 emptyStore inp =
        (emptyStore, Flash.error "An A record with this IP already exists", none)) ∧
    (∀ (rid : Nat) (inp : FormInput), inp.rtype = "A" →
      emptyStore.records.any (fun r => r.id == rid) = true →
      emptyStore.records.any (fun r => r.rtype == "A" && r.value == pyStrip inp.value && r.id != rid) = true →
      edit_record dns0 env0 emptyStore rid inp =
        (emptyStore, Flash.error "Another A record with this IP already exists", none)) :=
  no_duplicate_A_values dns0 env0 emptyStore
    [Op.addOp ⟨"web.example.com", "A", "203.0.113.5", 300⟩]
    ⟨by simp [storeInv, emptyStore], by simp [emptyStore]⟩

/-! Helper lemmas: A records keep a null resolved_ip. -/

theorem recordsANull_refresh (dns : DnsState) (l : List Record)
    (h : recordsANull l) : recordsANull (refresh_cname_resolutions dns l) := by
  intro r hr
  rw [refresh_cname_resolutions, List.mem_map] at hr
  obtain ⟨a, ha, rfl⟩ := hr
  intro hA
  have hA' : a.rtype = "A" := by rwa [refreshRow_rtype] at hA
  have hra : refreshRow dns a = a := by
    unfold refreshRow
    rw [if_neg (by rw [hA']; decide)]
  rw [hra]
  exact h a ha hA'

theorem recordsANull_insert (s : Store) (domain rtype value : String) (ttl : Int)
    (rip : Option String) (h : recordsANull s.records)
    (hrip : rtype = "A" → rip = none) :
    recordsANull (insertRecord s domain rtype value ttl rip).records := by
  intro r hr
  unfold insertRecord at hr
  simp only [List.mem_append, List.mem_singleton] at hr
  rcases hr with hr | rfl
  · exact h r hr
  · intro hA
    exact hrip hA

theorem recordsANull_update (l : List Record) (rid : Nat)
    (domain rtype value : String) (ttl : Int) (rip : Option String)
    (h : recordsANull l) (hrip : rtype = "A" → rip = none) :
    recordsANull (updateById l rid domain rtype value ttl rip) := by
  intro r hr
  unfold updateById at hr
  rw [List.mem_map] at hr
  obtain ⟨a, ha, rfl⟩ := hr
  by_cases haid : a.id = rid
  · rw [if_pos haid]
    intro hA
    exact hrip hA
  · rw [if_neg haid]
    exact h a ha

theorem recordsANull_add (dns : DnsState) (env : SysEnv) (s : Store)
    (inp : FormInput) (h : recordsANull s.records) :
    recordsANull (add_record dns env s inp).1.records := by
  simp only [add_record]
  split_ifs with h1 h2 h3 h4
  · exact h
  · exact h
  · exact h
  · cases hres : resolve_cname dns (pyStrip inp.value) with
    | error e => simp only [hres]; exact h
    | ok ip =>
        simp only [hres]
        refine recordsANull_refresh dns _ (recordsANull_insert _ _ _ _ _ _ h ?_)
        intro hA
        rw [h4] at hA
        exact absurd hA (by decide)
  · refine recordsANull_refresh dns _ (recordsANull_insert _ _ _ _ _ _ h ?_)
    intro _
    rfl

theorem recordsANull_edit (dns : DnsState) (env : SysEnv) (s : Store) (rid : Nat)
    (inp : FormInput) (h : recordsANull s.records) :
    recordsANull (edit_record dns env s rid inp).1.records := by
  simp only [edit_record]
  split_ifs with h1 h2 h3 h4
  · exact h
  · exact h
  · exact h
  · cases hres : resolve_cname dns (pyStrip inp.value) with
    | error e => simp only [hres]; exact h
    | ok ip =>
        simp only [hres]
        refine recordsANull_refresh dns _ (recordsANull_update _ _ _ _ _ _ _ h ?_)
        intro hA
        rw [h4] at hA
        exact absurd hA (by decide)
  · refine recordsANull_refresh dns _ (recordsANull_update _ _ _ _ _ _ _ h ?_)
    intro _
    rfl

theorem recordsANull_delete (dns : DnsState) (env : SysEnv) (s : Store)
    (rid : Nat) (h : recordsANull s.records) :
    recordsANull (delete_record dns env s rid).1.records := by
  refine recordsANull_refresh dns _ ?_
  intro r hr
  exact h r (List.mem_of_mem_filter hr)

theorem recordsANull_applyOp (dns : DnsState) (env : SysEnv) (s : Store) (op : Op)
    (h : recordsANull s.records) : recordsANull (applyOp dns env s op).records := by
  cases op with
  | addOp inp => exact recordsANull_add dns env s inp h
  | editOp rid inp => exact recordsANull_edit dns env s rid inp h
  | delOp rid => exact recordsANull_delete dns env s rid h

/-- C10: every operation keeps the resolved_ip of every A record null: add
and edit persist a null resolved_ip whenever the submitted type is A (in
particular editing a CNAME record into an A record discards its previously
resolved IP), the refresher rewrites only CNAME rows, and delete removes
rows; hence over any sequence of operations no A record ever carries a
resolved IP. -/
theorem a_record_resolved_ip_always_null (dns : DnsState) (env : SysEnv) :
    ∀ (ops : List Op) (store : Store), recordsANull store.records →
      recordsANull (applyOps dns env store ops).records
  | [], _, h => h
  | op :: ops, s, h =>
      a_record_resolved_ip_always_null dns env ops _
        (recordsANull_applyOp dns env s op h)

/-- C10 witness: editing a CNAME record holding a resolved IP into an A
record leaves a store whose A records all have null resolved_ip. -/
theorem a_record_resolved_ip_always_null_witness :
    recordsANull (applyOps dns0 env0 ⟨2, [exC1]⟩
      [Op.editOp 2 ⟨"host.example.com", "A", "10.0.0.1", 300⟩]).records :=
  a_record_resolved_ip_always_null dns0 env0
    [Op.editOp 2 ⟨"host.example.com", "A", "10.0.0.1", 300⟩] ⟨2, [exC1]⟩
    (by unfold recordsANull; decide)

/-- C6: when the submitted type is CNAME and the resolution engine fails on
the (stripped) target, both add and edit report an error flash, leave the
store unchanged, and write no configuration (no regeneration happens). -/
theorem cname_resolution_failure_blocks_mutation (dns : DnsState) (env : SysEnv)
    (store : Store) (inp : FormInput) (e : String)
    (hty : inp.rtype = "CNAME")
    (hres : resolve_cname dns (pyStrip inp.value) = Except.error e) :
    ((add_record dns env store inp).1 = store ∧
      ((add_record dns env store inp).2.1).isError = true ∧
      (add_record dns env store inp).2.2 = none) ∧
    ∀ rid : Nat, (edit_record dns env store rid inp).1 = store ∧
      ((edit_record dns env store rid inp).2.1).isError = true ∧
      (edit_record dns env store rid inp).2.2 = none := by
  constructor
  · by_cases h1 : pyStrip inp.domain = "" ∨ inp.rtype = "" ∨ pyStrip inp.value = ""
    · simp [add_record, h1, Flash.isError]
    · simp [add_record, h1, hty, hres, Flash.isError]
      split <;> exact ⟨rfl, rfl, rfl⟩
  · intro rid
    by_cases h1 : (store.records.any fun r => r.id == rid) = false
    · simp [edit_record, h1, Flash.isError]
    · simp [edit_record, h1, hty, hres, Flash.isError]

/-- C6 witness: on an oracle where every lookup is NXDOMAIN, adding or
editing a CNAME record is blocked with an error, no store change and no
config write. -/
theorem cname_resolution_failure_blocks_mutation_witness :
    ((add_record dns0 env0 emptyStore ⟨"alias.example.com", "CNAME", "target.example.com", 300⟩).1 = emptyStore ∧
      ((add_record dns0 env0 emptyStore ⟨"alias.example.com", "CNAME", "target.example.com", 300⟩).2.1).isError = true ∧
      (add_record dns0 env0 emptyStore ⟨"alias.example.com", "CNAME", "target.example.com", 300⟩).2.2 = none) ∧
    ∀ rid : Nat,
      (edit_record dns0 env0 emptyStore rid ⟨"alias.example.com", "CNAME", "target.example.com", 300⟩).1 = emptyStore ∧
      ((edit_record dns0 env0 emptyStore rid ⟨"alias.example.com", "CNAME", "target.example.com", 300⟩).2.1).isError = true ∧
      (edit_record dns0 env0 emptyStore rid ⟨"alias.example.com", "CNAME", "target.example.com", 300⟩).2.2 = none :=
  cname_resolution_failure_blocks_mutation dns0 env0 emptyStore
    ⟨"alias.example.com", "CNAME", "target.example.com", 300⟩
    "target.example.com" rfl (by rfl)

/-- C7 counterexample: with `unbound-checkconf` failing, activation returns
failure without attempting the restart, yet the calling add operation's
result — store, flash and written text — is identical to the all-commands-
succeed case and its flash is the unqualified "Record added successfully":
no degraded activation is reported to the operator, contrary to the claim. -/
theorem activation_failure_reports_plain_success :
    envBad.checkconfOk = false ∧
    restart_unbound envBad = (false, false) ∧
    (add_record dns0 envBad emptyStore ⟨"web.example.com", "A", "203.0.113.5", 300⟩).2.1
      = Flash.success "Record added successfully" ∧
    add_record dns0 envBad emptyStore ⟨"web.example.com", "A", "203.0.113.5", 300⟩
      = add_record dns0 env0 emptyStore ⟨"web.example.com", "A", "203.0.113.5", 300⟩ := by
  refine ⟨rfl, rfl, ?_, ?_⟩ <;> rfl

/-- C7 amended: when the syntax-validation command reports failure,
activation returns failure without invoking the restart command, and neither
failure terminates the process (both are caught and returned as a boolean);
however the config generator discards that boolean, so every mutation
operation completes with a result — store, flash and written configuration —
that does not depend on the environment at all: the record stays persisted
but the operator receives the unqualified success message, not a
degraded-activation report. -/
theorem activation_failure_isolated (dns : DnsState) (store : Store)
    (inp : FormInput) (rid : Nat) (env : SysEnv)
    (hv : env.checkconfOk = false) :
    restart_unbound env = (false, false) ∧
    (∀ env2 : SysEnv, add_record dns env store inp = add_record dns env2 store inp) ∧
    (∀ env2 : SysEnv, edit_record dns env store rid inp = edit_record dns env2 store rid inp) ∧
    (∀ env2 : SysEnv, delete_record dns env store rid = delete_record dns env2 store rid) := by
  refine ⟨?_, fun env2 => rfl, fun env2 => rfl, fun env2 => rfl⟩
  simp [restart_unbound, hv]

/-- C7 amended, witness at a concrete failing environment. -/
theorem activation_failure_isolated_witness :
    restart_unbound envBad = (false, false) ∧
    (∀ env2 : SysEnv,
      add_record dns0 envBad emptyStore ⟨"web.example.com", "A", "203.0.113.5", 300⟩
        = add_record dns0 env2 emptyStore ⟨"web.example.com", "A", "203.0.113.5", 300⟩) ∧
    (∀ env2 : SysEnv,
      edit_record dns0 envBad emptyStore 1 ⟨"web.example.com", "A", "203.0.113.5", 300⟩
        = edit_record dns0 env2 emptyStore 1 ⟨"web.example.com", "A", "203.0.113.5", 300⟩) ∧
    (∀ env2 : SysEnv,
      delete_record dns0 envBad emptyStore 1 = delete_record dns0 env2 emptyStore 1) :=
  activation_failure_isolated dns0 emptyStore
    ⟨"web.example.com", "A", "203.0.113.5", 300⟩ 1 envBad rfl

/-- C8 (code bug): the source's validation does not enforce the data model.
In `add_record` the emptiness check tests `str(ttl)`, which is truthy for
every integer, so an A record with ttl 0 is persisted with a success flash;
and the POST branch of `edit_record` has no emptiness check at all, so an
edit submitting an empty domain is persisted with a success flash.  Both
evaluations below exhibit the persisted invalid rows. -/
theorem validation_gaps_persist_invalid_records :
    (add_record dns0 env0 emptyStore ⟨"test.example.com", "A", "10.0.0.1", 0⟩).1.records
      = [⟨1, "test.example.com", "A", "10.0.0.1", 0, none⟩] ∧
    (add_record dns0 env0 emptyStore ⟨"test.example.com", "A", "10.0.0.1", 0⟩).2.1
      = Flash.success "Record added successfully" ∧
    (edit_record dns0 env0 ⟨2, [⟨1, "test.example.com", "A", "10.0.0.1", 300, none⟩]⟩ 1
        ⟨"", "A", "10.0.0.2", 300⟩).1.records
      = [⟨1, "", "A", "10.0.0.2", 300, none⟩] ∧
    (edit_record dns0 env0 ⟨2, [⟨1, "test.example.com", "A", "10.0.0.1", 300, none⟩]⟩ 1
        ⟨"", "A", "10.0.0.2", 300⟩).2.1
      = Flash.success "Record updated successfully" := by
  refine ⟨?_, ?_, ?_, ?_⟩ <;> rfl
